import Mathlib

/-!
Verification of the video block (src/blocks/video/video.js): video-source
classification, YouTube id extraction, the modal open/close state machine
with lazy SDK loading, and the teaser decoration logic, embedded as
executable Lean definitions.
-/

namespace VideoBlock

/-- Does pattern `p` match the leading characters of `s`? -/
def leadMatch : List Char → List Char → Bool
  | [], _ => true
  | _ :: _, [] => false
  | p :: ps, c :: cs => p == c && leadMatch ps cs

/-- Does pattern `p` occur as a contiguous substring of `s`?  This is the
semantics of a JavaScript regex literal consisting only of plain characters
and escaped dots (as in the entries of `videoTypeMap`). -/
def containsSub (p : List Char) : List Char → Bool
  | [] => leadMatch p []
  | c :: cs => leadMatch p (c :: cs) || containsSub p cs

/-- The `videoTypeMap` table from the source: an ordered table of kind names to url
patterns.  The regexes `/youtube\.com/`, `/youtu\.be/` and `/vimeo\.com/`
are plain substring tests. -/
def videoTypeMap : List (String × List (List Char)) :=
  [( "youtube", [String.data "youtube.com", String.data "youtu.be"]),
   ( "external", [String.data "vimeo.com"])]

/-- The function `getVideoType` from the source: find the first entry of `videoTypeMap`
one of whose patterns matches `href`; return its kind name, or `none`
(JavaScript `undefined`) when no entry matches. -/
def getVideoType (href : String) : Option String :=
  (videoTypeMap.find? (fun e => e.2.any (fun p => containsSub p href.data))).map
    (fun e => e.1)

/-- Is `c` one of the characters excluded by the capture class
`[^&\n?#]` of the YouTube id regex? -/
def stopChar (c : Char) : Bool :=
  c == '&' || c == '\n' || c == '?' || c == '#'

/-- The capture `([^&\n?#]+)`: the maximal leading run of characters not in
the stop set (greedy, to the end of the pattern). -/
def captureRun (s : List Char) : List Char :=
  s.takeWhile (fun c => !stopChar c)

/-- Try one alternative of the YouTube id regex at the current position:
the alternative's literal marker must match here and the following capture
must be non-empty. -/
def tryAlt (p : List Char) (s : List Char) : Option (List Char) :=
  if leadMatch p s then
    let cap := captureRun (s.drop p.length)
    if cap.isEmpty then none else some cap
  else none

/-- The alternatives of the regex
`(?:[?&]v=|\/embed\/|\/1\/|\/v\/|https:\/\/(?:www\.)?youtu\.be\/)`
in backtracking order: the character class `[?&]` expands to its two
branches, and the greedy optional `(?:www\.)?` is tried with `www.` first. -/
def ytAlts : List (List Char) :=
  [String.data "?v=", String.data "&v=", String.data "/embed/",
   String.data "/1/", String.data "/v/",
   String.data "https://www.youtu.be/", String.data "https://youtu.be/"]

/-- Leftmost-match search of a list of alternatives followed by the capture
`([^&\n?#]+)`: at each position the alternatives are tried in order and the
first whose marker matches with a non-empty capture wins; otherwise the
scan advances one character. -/
def scanAlts (alts : List (List Char)) : List Char → Option (List Char)
  | [] => none
  | c :: cs =>
    match alts.findSome? (fun p => tryAlt p (c :: cs)) with
    | some cap => some cap
    | none => scanAlts alts cs

/-- The function `getYouTubeId` from the source: match `href` against
`/(?:[?&]v=|\/embed\/|\/1\/|\/v\/|https:\/\/(?:www\.)?youtu\.be\/)([^&\n?#]+)/`
and return the first capturing group, or `none` (JavaScript `null`) when
the regex does not match. -/
def getYouTubeId (href : String) : Option String :=
  (scanAlts ytAlts href.data).map (fun l => String.mk l)

/-- JavaScript string coercion applied by `setAttribute` and template
literals: the value `null` becomes the string "null". -/
def jsAttr : Option String → String
  | some s => s
  | none => "null"

/-- The modal subtree produced by `buildVideoModal`: the attributes of its
`.video-modal-content` pane and whether a native `<video>` element was
inserted.  For the youtube case the extracted id is written through
`setAttribute`, so a `null` id is coerced to the string "null". -/
structure ModalDom where
  dataVideoType : Option String
  dataVideoId : Option String
  hasNativeVideo : Bool
deriving DecidableEq

/-- The function `buildVideoModal` from the source: youtube modals carry
`data-videoType="youtube"` and `data-videoId` (the extracted id, coerced);
every other modal gets a native `<video>` element with the href as source. -/
def buildVideoModal (href : String) (videoType : Option String) : ModalDom :=
  if videoType = some "youtube" then
    { dataVideoType := some "youtube",
      dataVideoId := some (jsAttr (getYouTubeId href)),
      hasNativeVideo := false }
  else
    { dataVideoType := none, dataVideoId := none, hasNativeVideo := true }

/-- Outcome of `decorate` for a block whose image pane holds a link:
whether the link was replaced by a play button, whether it was instead
turned into a new-tab link, and the modal subtree appended to the block
(if any). -/
structure DecorResult where
  playButton : Bool
  newTabLink : Bool
  modal : Option ModalDom
deriving DecidableEq

/-- The video-link portion of `decorate` from the source: classify the
href; `decorateVideoLink` replaces the link with a play button unless the
type is "external" (then it becomes a new-tab link); a modal is built and
appended for every type other than "external" - including `undefined`. -/
def decorate (href : String) : DecorResult :=
  let videoType := getVideoType href
  if videoType ≠ some "external" then
    { playButton := true, newTabLink := false,
      modal := some (buildVideoModal href videoType) }
  else
    { playButton := false, newTabLink := true, modal := none }

/-- The module-global `player` variable: the YT.Player instance created by
`loadYouTubePlayer`, with the video id and container id it was created for
and whether it is currently playing. -/
structure Player where
  vid : String
  frameId : String
  playing : Bool
deriving DecidableEq

/-- The state visible to `toggleVideoOverlay`: the modal DOM (presence of
the subtree, of the content pane and of the native video element, the
"open" class, the data attributes, the `ytFrame-` container and the native
video's paused flag and play position), together with the process-wide
state (`window.YT`, the number of injected SDK script tags, the registered
`onYouTubePlayerAPIReady` callback and the global `player`). -/
structure OverlayState where
  modalPresent : Bool
  contentPresent : Bool
  modalOpen : Bool
  dataVideoType : Option String
  dataVideoId : Option String
  videoPresent : Bool
  videoPaused : Bool
  videoTime : Nat
  frame : Option String
  windowYT : Bool
  scriptsInjected : Nat
  onAPIReady : Option String
  player : Option Player
  playersCreated : Nat
deriving DecidableEq

/-- The function `toggleVideoOverlay` from the source.  Unguarded DOM dereferences are
modelled as thrown TypeErrors: `modal.querySelector` on a missing modal,
`videoContent.getAttribute` on a missing content pane, and the unguarded
`modal.querySelector(video).currentTime = 0` on the close branch.  The
document is assumed to contain at least one script tag (the module itself
is loaded by one), so `insertBefore` never fails. -/
def toggleVideoOverlay (s : OverlayState) : Except String OverlayState :=
  if !s.modalPresent then Except.error "TypeError: modal is null" else
  if !s.contentPresent then Except.error "TypeError: videoContent is null" else
  let fid := "ytFrame-" ++ jsAttr s.dataVideoId
  if s.modalOpen then
    let s1 := { s with modalOpen := false }
    if s1.dataVideoType = some "youtube" then
      let s2 := { s1 with
        player := s1.player.map (fun p => { p with playing := false }) }
      if s2.frame = some fid then Except.ok { s2 with frame := none }
      else Except.ok s2
    else
      if s1.videoPresent then
        Except.ok { s1 with videoPaused := true, videoTime := 0 }
      else Except.error "TypeError: video is null"
  else
    let s1 := { s with modalOpen := true }
    if s1.dataVideoType = some "youtube" then
      let s2 := { s1 with frame := some fid }
      if s2.windowYT then
        Except.ok { s2 with
          player := some { vid := jsAttr s2.dataVideoId, frameId := fid,
                           playing := true },
          playersCreated := s2.playersCreated + 1 }
      else
        Except.ok { s2 with scriptsInjected := s2.scriptsInjected + 1,
                            onAPIReady := some (jsAttr s2.dataVideoId) }
    else
      if s1.videoPresent then Except.ok { s1 with videoPaused := false }
      else Except.ok s1

/-- The asynchronous "SDK loaded" event: the injected iframe_api script
finishes loading, defines `window.YT` and invokes the registered
`onYouTubePlayerAPIReady` callback, which calls `loadYouTubePlayer`. -/
def sdkReady (s : OverlayState) : OverlayState :=
  let s1 := { s with windowYT := true }
  match s1.onAPIReady with
  | none => s1
  | some vid =>
    { s1 with
      player := some { vid := vid, frameId := "ytFrame-" ++ vid,
                       playing := true },
      playersCreated := s1.playersCreated + 1 }

/-- Environment event, not code of the module: the user watches the native
video for a while, advancing `currentTime`. -/
def advancePlayback (t : Nat) (s : OverlayState) : OverlayState :=
  { s with videoTime := t }

/-- The overlay state right after `decorate` appended a freshly built
modal: modal and content pane present, modal closed, attributes as built,
native video (when present) paused at position 0, and the given
process-wide SDK availability. -/
def initState (m : ModalDom) (yt : Bool) : OverlayState :=
  { modalPresent := true, contentPresent := true, modalOpen := false,
    dataVideoType := m.dataVideoType, dataVideoId := m.dataVideoId,
    videoPresent := m.hasNativeVideo, videoPaused := true, videoTime := 0,
    frame := none, windowYT := yt, scriptsInjected := 0, onAPIReady := none,
    player := none, playersCreated := 0 }

/-- Run `n` successive invocations of `toggleVideoOverlay`, propagating a
thrown error. -/
def runToggles : Nat → OverlayState → Except String OverlayState
  | 0, s => Except.ok s
  | n + 1, s => (toggleVideoOverlay s).bind (runToggles n)

/-- Modelled from the spec: the four URL shapes the spec names for
`extractId` (`?v=` / `&v=` query parameter, `/embed/` path, `/v/` path,
and the `https://youtu.be/` short form, with optional `www.`), in the same
backtracking order, for comparison with the source's `ytAlts`. -/
def specFourAlts : List (List Char) :=
  [String.data "?v=", String.data "&v=", String.data "/embed/",
   String.data "/v/",
   String.data "https://www.youtu.be/", String.data "https://youtu.be/"]

/-- Modelled from the spec: id extraction restricted to the four URL shapes
the spec names. -/
def extractIdSpecFour (href : String) : Option String :=
  (scanAlts specFourAlts href.data).map (fun l => String.mk l)

/-- The five URL shapes the source regex actually contains: the spec's four
plus the `/1/` path alternative, in the regex's order. -/
def specFiveAlts : List (List Char) :=
  [String.data "?v=", String.data "&v=", String.data "/embed/",
   String.data "/1/", String.data "/v/",
   String.data "https://www.youtu.be/", String.data "https://youtu.be/"]

/-- Id extraction over the five URL shapes of the source regex. -/
def extractIdSpecFive (href : String) : Option String :=
  (scanAlts specFiveAlts href.data).map (fun l => String.mk l)

/-- A freshly decorated Youtube modal (id "abc") on a page where the SDK
has not been requested yet. -/
def ytStart : OverlayState :=
  initState (buildVideoModal ( "https://youtu.be/abc") (some "youtube")) false

/-- An open Youtube modal with a live player and its hosting container, on
a page where the SDK has loaded. -/
def ytOpen : OverlayState :=
  { modalPresent := true, contentPresent := true, modalOpen := true,
    dataVideoType := some "youtube", dataVideoId := some "abc",
    videoPresent := false, videoPaused := true, videoTime := 0,
    frame := some "ytFrame-abc", windowYT := true, scriptsInjected := 1,
    onAPIReady := none,
    player := some { vid := "abc", frameId := "ytFrame-abc", playing := true },
    playersCreated := 1 }

/-- An open direct-file modal whose native video element is missing from
the modal subtree. -/
def directNoVideo : OverlayState :=
  { modalPresent := true, contentPresent := true, modalOpen := true,
    dataVideoType := none, dataVideoId := none,
    videoPresent := false, videoPaused := false, videoTime := 7,
    frame := none, windowYT := false, scriptsInjected := 0,
    onAPIReady := none, player := none, playersCreated := 0 }

/-- A freshly decorated direct-file modal. -/
def directStart : OverlayState :=
  initState (buildVideoModal ( "https://example.com/video.mp4") none) false

/-- The state after the first open of `ytStart`: modal open, hosting
container created, one SDK script tag injected, ready-callback registered,
no player yet. -/
def ytAfterOpen : OverlayState :=
  { modalPresent := true, contentPresent := true, modalOpen := true,
    dataVideoType := some "youtube", dataVideoId := some "abc",
    videoPresent := false, videoPaused := true, videoTime := 0,
    frame := some "ytFrame-abc", windowYT := false, scriptsInjected := 1,
    onAPIReady := some "abc", player := none, playersCreated := 0 }

/-- The state after toggling `ytOpen`: modal closed, player stopped but
still referenced, hosting container removed. -/
def ytClosed : OverlayState :=
  { ytOpen with
    modalOpen := false,
    frame := none,
    player := some { vid := "abc", frameId := "ytFrame-abc",
                     playing := false } }


/-- Claim C4: for every href, `getVideoType` returns "youtube" when the
href matches the youtube.com or youtu.be pattern, otherwise "external"
when it matches the vimeo.com pattern, otherwise `none`; the table is
ordered, so when several kinds match the first kind (youtube) wins. -/
theorem getVideoType_ordered_first_match (href : String) :
    getVideoType href =
      (if containsSub (String.data "youtube.com") href.data ||
          containsSub (String.data "youtu.be") href.data then some "youtube"
       else if containsSub (String.data "vimeo.com") href.data then
         some "external"
       else none) := by
  unfold getVideoType videoTypeMap
  cases h1 : containsSub (String.data "youtube.com") href.data <;>
    cases h2 : containsSub (String.data "youtu.be") href.data <;>
      cases h3 : containsSub (String.data "vimeo.com") href.data <;>
        simp [List.find?, List.any, h1, h2, h3]

/-- Claim C5, counterexample: the href "https://example.com/1/abc" matches
none of the four URL shapes the claim lists (the spec-modelled
`extractIdSpecFour` returns `none` on it), yet `getYouTubeId` returns
"abc" rather than `null`, through the regex's fifth alternative `/1/`. -/
theorem extractId_four_shapes_cex :
    extractIdSpecFour ( "https://example.com/1/abc") = none ∧
    getYouTubeId ( "https://example.com/1/abc") = some "abc" := by
  exact ⟨by decide, by decide⟩

/-- Claim C5 as amended: `getYouTubeId` recognizes five URL shapes - the
`?v=`/`&v=` query parameter, the `/embed/` path, the legacy `/1/` path,
the legacy `/v/` path, and the `https://youtu.be/` short form - returning
the first capturing-group match for those and `none` for every href
matching none of them; in particular the three concrete examples of the
claim hold. -/
theorem extractId_five_shapes :
    (∀ href : String, getYouTubeId href = extractIdSpecFive href) ∧
    getYouTubeId ( "https://www.youtube.com/watch?v=abc123") = some "abc123" ∧
    getYouTubeId ( "https://youtu.be/xyz789") = some "xyz789" ∧
    getYouTubeId ( "https://example.com/video.mp4") = none := by
  exact ⟨fun href => rfl, by decide, by decide, by decide⟩

/-- Claim C1, counterexample: "https://example.com/video.mp4" is an href
on which `getVideoType` returns `none` (JavaScript `undefined`), yet the
decorator does not leave it as a plain external hyperlink: it replaces the
link with a play button, sets no new-tab target, and builds a modal
hosting a native video element. -/
theorem decorate_unknown_builds_modal_cex :
    getVideoType ( "https://example.com/video.mp4") = none ∧
    decorate ( "https://example.com/video.mp4") =
      { playButton := true, newTabLink := false,
        modal := some { dataVideoType := none, dataVideoId := none,
                        hasNativeVideo := true } } := by
  exact ⟨by decide, by decide⟩

/-- Claim C1 as amended: for every href on which `getVideoType` returns
`undefined`, the decorator treats the link as a direct-file video - it
replaces the link with a play button (no new-tab link) and builds a modal
hosting a native video element; only hrefs classified "external" are left
as plain new-tab hyperlinks with no modal. -/
theorem decorate_unknown_direct_file (href : String)
    (h : getVideoType href = none) :
    decorate href =
      { playButton := true, newTabLink := false,
        modal := some { dataVideoType := none, dataVideoId := none,
                        hasNativeVideo := true } } := by
  unfold decorate buildVideoModal
  rw [h]
  simp

/-- Witness for `decorate_unknown_direct_file` at the href
"https://example.com/video.mp4". -/
theorem decorate_unknown_direct_file_witness :
    decorate ( "https://example.com/video.mp4") =
      { playButton := true, newTabLink := false,
        modal := some { dataVideoType := none, dataVideoId := none,
                        hasNativeVideo := true } } :=
  decorate_unknown_direct_file ( "https://example.com/video.mp4") (by decide)

/-- Claim C2, counterexample: starting from a freshly decorated Youtube
modal on a page without the SDK, the toggle sequence open, close, open
(the second open happening while the SDK load is still pending, since no
SDK-ready event fired) injects a second script tag: after three toggles
the page holds 2 injected SDK script tags. -/
theorem sdk_script_injected_twice_cex :
    (runToggles 3 ytStart).map (fun s => (s.scriptsInjected, s.modalOpen)) =
      Except.ok (2, true) := by
  rfl

/-- Claim C2 as amended: a toggle injects an SDK script tag exactly when
it opens a Youtube modal while `window.YT` is not yet defined - so the
first open injects one tag, opens after the SDK has loaded inject none,
but an open that occurs while the SDK load is still pending injects an
additional tag; no toggle ever changes `window.YT`. -/
theorem sdk_injection_characterization (s s2 : OverlayState)
    (h : toggleVideoOverlay s = Except.ok s2) :
    s2.scriptsInjected =
      s.scriptsInjected +
        (if s.modalOpen = false ∧ s.dataVideoType = some "youtube" ∧
            s.windowYT = false then 1 else 0) ∧
    s2.windowYT = s.windowYT := by
  simp only [toggleVideoOverlay] at h
  split_ifs at h <;> injection h with h <;> subst h <;> simp_all

/-- Witness for `sdk_injection_characterization` at the first open of a
fresh Youtube modal, which injects exactly one script tag. -/
theorem sdk_injection_characterization_witness :
    ytAfterOpen.scriptsInjected =
      ytStart.scriptsInjected +
        (if ytStart.modalOpen = false ∧
            ytStart.dataVideoType = some "youtube" ∧
            ytStart.windowYT = false then 1 else 0) ∧
    ytAfterOpen.windowYT = ytStart.windowYT :=
  sdk_injection_characterization ytStart ytAfterOpen (by rfl)

/-- Claim C3, counterexample: invoking the activation operation
(`toggleVideoOverlay`, which both the play and the close control call) on
the already-open Youtube modal `ytOpen` does not re-run the open branch:
it runs the close branch - the modal is marked closed, no second player
creation happens (`playersCreated` stays 1), and the hosting container is
removed rather than reconstructed. -/
theorem toggle_on_open_runs_close_cex :
    toggleVideoOverlay ytOpen = Except.ok ytClosed ∧
    ytClosed.modalOpen = false ∧
    ytClosed.playersCreated = ytOpen.playersCreated ∧
    ytClosed.frame = none := by
  exact ⟨by rfl, by decide, by decide, by decide⟩

/-- Claim C3 as amended: `toggleVideoOverlay` is a toggle, not a guarded
open; invoked on an already-open Youtube modal it runs the close branch -
the modal is marked closed, no player creation is issued, no script is
injected, the hosting container is removed (never reconstructed), and the
player reference is kept (only stopped), not replaced. -/
theorem toggle_on_open_closes (s : OverlayState)
    (hm : s.modalPresent = true) (hc : s.contentPresent = true)
    (ho : s.modalOpen = true) (ht : s.dataVideoType = some "youtube") :
    ∃ s2, toggleVideoOverlay s = Except.ok s2 ∧ s2.modalOpen = false ∧
      s2.playersCreated = s.playersCreated ∧
      s2.scriptsInjected = s.scriptsInjected ∧
      s2.frame ≠ some ( "ytFrame-" ++ jsAttr s.dataVideoId) ∧
      Option.map Player.vid s2.player = Option.map Player.vid s.player := by
  by_cases hf : s.frame = some ( "ytFrame-" ++ jsAttr s.dataVideoId)
  · refine ⟨{ s with
        modalOpen := false,
        frame := none,
        player := s.player.map (fun p => { p with playing := false }) },
      ?_, rfl, rfl, rfl, by simp, by cases s.player <;> simp⟩
    simp [toggleVideoOverlay, hm, hc, ho, ht, hf]
  · refine ⟨{ s with
        modalOpen := false,
        player := s.player.map (fun p => { p with playing := false }) },
      ?_, rfl, rfl, rfl, by simpa using hf, by cases s.player <;> simp⟩
    simp [toggleVideoOverlay, hm, hc, ho, ht, hf]

/-- Witness for `toggle_on_open_closes` at the concrete open Youtube modal
`ytOpen`. -/
theorem toggle_on_open_closes_witness :
    ∃ s2, toggleVideoOverlay ytOpen = Except.ok s2 ∧ s2.modalOpen = false ∧
      s2.playersCreated = ytOpen.playersCreated ∧
      s2.scriptsInjected = ytOpen.scriptsInjected ∧
      s2.frame ≠ some ( "ytFrame-" ++ jsAttr ytOpen.dataVideoId) ∧
      Option.map Player.vid s2.player = Option.map Player.vid ytOpen.player :=
  toggle_on_open_closes ytOpen rfl rfl rfl rfl

/-- Claim C8, counterexample: `toggleVideoOverlay` does surface thrown
errors to the host page: closing a direct-file modal whose native video
element is absent throws a TypeError (the unguarded `currentTime`
assignment), and invoking it on a block whose modal subtree is absent
throws a TypeError at the first DOM lookup. -/
theorem toggle_throws_cex :
    toggleVideoOverlay directNoVideo =
      Except.error "TypeError: video is null" ∧
    toggleVideoOverlay { directNoVideo with modalPresent := false } =
      Except.error "TypeError: modal is null" := by
  exact ⟨by rfl, by rfl⟩

/-- Claim C8 as amended: failures are not always absorbed -
`toggleVideoOverlay` throws exactly when the modal subtree is absent, when
the content pane is absent, or when an open non-youtube modal is closed
while its native video element is absent; in every other state it returns
normally. -/
theorem toggle_error_characterization (s : OverlayState) :
    (toggleVideoOverlay s).isOk = false ↔
      (s.modalPresent = false ∨ s.contentPresent = false ∨
        (s.modalOpen = true ∧ s.dataVideoType ≠ some "youtube" ∧
         s.videoPresent = false)) := by
  by_cases h1 : s.modalPresent <;> by_cases h2 : s.contentPresent <;>
    by_cases h3 : s.modalOpen <;>
      by_cases h4 : s.dataVideoType = some "youtube" <;>
        by_cases h5 : s.videoPresent <;>
          by_cases h6 : s.frame = some ( "ytFrame-" ++ jsAttr s.dataVideoId) <;>
            by_cases h7 : s.windowYT <;>
              simp [toggleVideoOverlay, Except.isOk, Except.toBool, h1, h2,
                h3, h4, h5, h6, h7]

/-- Claim C6: closing a direct-file modal pauses the native video element
and resets its play position to 0, so after open, playback progress and
close the position is 0, and it is still 0 right after a reopen. -/
theorem directfile_close_resets_position (s : OverlayState) (t : Nat)
    (hm : s.modalPresent = true) (hc : s.contentPresent = true)
    (ho : s.modalOpen = false) (ht : s.dataVideoType ≠ some "youtube")
    (hv : s.videoPresent = true) :
    ∃ s1 s3 s4,
      toggleVideoOverlay s = Except.ok s1 ∧
      toggleVideoOverlay (advancePlayback t s1) = Except.ok s3 ∧
      s3.videoPaused = true ∧ s3.videoTime = 0 ∧
      toggleVideoOverlay s3 = Except.ok s4 ∧ s4.videoTime = 0 := by
  refine ⟨{ s with modalOpen := true, videoPaused := false },
    { s with modalOpen := false, videoPaused := true, videoTime := 0 },
    { s with modalOpen := true, videoPaused := false, videoTime := 0 },
    ?_, ?_, rfl, rfl, ?_, rfl⟩ <;>
    simp [toggleVideoOverlay, advancePlayback, hm, hc, ho, ht, hv]

/-- Witness for `directfile_close_resets_position` at a freshly decorated
direct-file modal and playback progress 42. -/
theorem directfile_close_resets_position_witness :
    ∃ s1 s3 s4,
      toggleVideoOverlay directStart = Except.ok s1 ∧
      toggleVideoOverlay (advancePlayback 42 s1) = Except.ok s3 ∧
      s3.videoPaused = true ∧ s3.videoTime = 0 ∧
      toggleVideoOverlay s3 = Except.ok s4 ∧ s4.videoTime = 0 :=
  directfile_close_resets_position directStart 42 rfl rfl rfl
    (by decide) rfl

/-- Claim C7, counterexample: "https://youtube.com/" is classified
youtube but `getYouTubeId` returns `none` on it; building the modal
succeeds, yet opening it with the SDK available is not a no-op with
respect to the player: a player instance is constructed for the coerced
video id "null". -/
theorem null_id_player_constructed_cex :
    getVideoType ( "https://youtube.com/") = some "youtube" ∧
    getYouTubeId ( "https://youtube.com/") = none ∧
    (toggleVideoOverlay
        (initState (buildVideoModal ( "https://youtube.com/")
          (some "youtube")) true)).map
        (fun s => (s.playersCreated, s.player)) =
      Except.ok (1, some { vid := "null", frameId := "ytFrame-null",
                           playing := true }) := by
  exact ⟨by decide, by decide, by rfl⟩

/-- Claim C7 as amended: for a Youtube-classified href whose id cannot be
parsed, building the modal still succeeds (non-fatal) - its
`data-videoId` attribute holds the string "null" by JavaScript coercion -
but the open transition is not a silent no-op: it creates the hosting
container "ytFrame-null" and, the SDK being available, constructs a
player instance for the video id "null". -/
theorem null_id_modal_open_creates_player (href : String)
    (_hy : getVideoType href = some "youtube")
    (hn : getYouTubeId href = none) :
    (buildVideoModal href (some "youtube")).dataVideoId = some "null" ∧
    (toggleVideoOverlay
        (initState (buildVideoModal href (some "youtube")) true)).map
        (fun s => (s.playersCreated, s.player, s.frame)) =
      Except.ok (1, some { vid := "null", frameId := "ytFrame-null",
                           playing := true }, some "ytFrame-null") := by
  constructor
  · simp [buildVideoModal, hn, jsAttr]
  · simp [buildVideoModal, hn, jsAttr, initState, toggleVideoOverlay,
      Except.map]

/-- Witness for `null_id_modal_open_creates_player` at the href
"https://youtube.com/". -/
theorem null_id_modal_open_creates_player_witness :
    (buildVideoModal ( "https://youtube.com/")
        (some "youtube")).dataVideoId = some "null" ∧
    (toggleVideoOverlay
        (initState (buildVideoModal ( "https://youtube.com/")
          (some "youtube")) true)).map
        (fun s => (s.playersCreated, s.player, s.frame)) =
      Except.ok (1, some { vid := "null", frameId := "ytFrame-null",
                           playing := true }, some "ytFrame-null") :=
  null_id_modal_open_creates_player ( "https://youtube.com/")
    (by decide) (by decide)

/-- Claim C9: on the Youtube close transition, stop is a no-op when no
player instance exists; the player reference is only stopped, never
destroyed or replaced, and the creation count does not change; the
hosting container addressed by the id derived from the video id is
removed from the DOM when it exists, and an unrelated container is left
alone. -/
theorem youtube_close_stop_noop_remove_container (s : OverlayState)
    (hm : s.modalPresent = true) (hc : s.contentPresent = true)
    (ho : s.modalOpen = true) (ht : s.dataVideoType = some "youtube") :
    ∃ s2, toggleVideoOverlay s = Except.ok s2 ∧
      (s.player = none → s2.player = none) ∧
      s2.player = s.player.map (fun p => { p with playing := false }) ∧
      Option.map Player.vid s2.player = Option.map Player.vid s.player ∧
      s2.playersCreated = s.playersCreated ∧
      (s.frame = some ( "ytFrame-" ++ jsAttr s.dataVideoId) →
        s2.frame = none) ∧
      (s.frame ≠ some ( "ytFrame-" ++ jsAttr s.dataVideoId) →
        s2.frame = s.frame) := by
  by_cases hf : s.frame = some ( "ytFrame-" ++ jsAttr s.dataVideoId)
  · refine ⟨{ s with
        modalOpen := false,
        frame := none,
        player := s.player.map (fun p => { p with playing := false }) },
      ?_, ?_, rfl, by cases s.player <;> simp, rfl,
      fun _ => rfl, fun hn => absurd hf hn⟩
    · simp [toggleVideoOverlay, hm, hc, ho, ht, hf]
    · intro hp
      simp [hp]
  · refine ⟨{ s with
        modalOpen := false,
        player := s.player.map (fun p => { p with playing := false }) },
      ?_, ?_, rfl, by cases s.player <;> simp, rfl,
      fun hcontra => absurd hcontra hf, fun _ => rfl⟩
    · simp [toggleVideoOverlay, hm, hc, ho, ht, hf]
    · intro hp
      simp [hp]

/-- Witness for `youtube_close_stop_noop_remove_container` at the
concrete open Youtube modal `ytOpen`. -/
theorem youtube_close_stop_noop_remove_container_witness :
    ∃ s2, toggleVideoOverlay ytOpen = Except.ok s2 ∧
      (ytOpen.player = none → s2.player = none) ∧
      s2.player = ytOpen.player.map (fun p => { p with playing := false }) ∧
      Option.map Player.vid s2.player = Option.map Player.vid ytOpen.player ∧
      s2.playersCreated = ytOpen.playersCreated ∧
      (ytOpen.frame = some ( "ytFrame-" ++ jsAttr ytOpen.dataVideoId) →
        s2.frame = none) ∧
      (ytOpen.frame ≠ some ( "ytFrame-" ++ jsAttr ytOpen.dataVideoId) →
        s2.frame = ytOpen.frame) :=
  youtube_close_stop_noop_remove_container ytOpen rfl rfl rfl rfl

/-- A run of non-stop characters is captured whole, and the capture ends
at the first stop character. -/
theorem captureRun_append_stop (id : List Char) (d : Char) (t : List Char)
    (h2 : ∀ c ∈ id, stopChar c = false) (h3 : stopChar d = true) :
    captureRun (id ++ d :: t) = id := by
  induction id with
  | nil =>
    simp [captureRun, List.takeWhile, h3]
  | cons c cs ih =>
    have hc : stopChar c = false := h2 c (by simp)
    have ih2 : captureRun (cs ++ d :: t) = cs :=
      ih (fun x hx => h2 x (by simp [hx]))
    simp only [captureRun, List.cons_append, List.takeWhile] at ih2 ⊢
    simp [hc, ih2]

/-- At a position starting with the marker of the first alternative
`?v=`, the scan returns the capture when it is non-empty. -/
theorem scanAlts_at_qv (x : List Char) (hne : captureRun x ≠ []) :
    scanAlts ytAlts ('?' :: 'v' :: '=' :: x) = some (captureRun x) := by
  have hemp : (captureRun x).isEmpty = false := by
    cases hcap : captureRun x with
    | nil => exact absurd hcap hne
    | cons a l => rfl
  have h1 : tryAlt (String.data "?v=") ('?' :: 'v' :: '=' :: x) =
      if (captureRun x).isEmpty then none else some (captureRun x) := rfl
  simp [scanAlts, ytAlts, List.findSome?, h1, hemp]

/-- At a position starting with the marker of the second alternative
`&v=`, the scan returns the capture when it is non-empty (the first
alternative fails on the ampersand). -/
theorem scanAlts_at_av (x : List Char) (hne : captureRun x ≠ []) :
    scanAlts ytAlts ('&' :: 'v' :: '=' :: x) = some (captureRun x) := by
  have hemp : (captureRun x).isEmpty = false := by
    cases hcap : captureRun x with
    | nil => exact absurd hcap hne
    | cons a l => rfl
  have h0 : tryAlt (String.data "?v=") ('&' :: 'v' :: '=' :: x) = none := rfl
  have h1 : tryAlt (String.data "&v=") ('&' :: 'v' :: '=' :: x) =
      if (captureRun x).isEmpty then none else some (captureRun x) := rfl
  simp [scanAlts, ytAlts, List.findSome?, h0, h1, hemp]

/-- Claim C10: for hrefs in the `?v=` and `&v=` query-parameter shapes,
the extracted id is truncated at the first following stop character
(ampersand, question mark, hash or newline): the id run itself is
returned and the trailing query parameters are excluded. -/
theorem ytid_truncated_at_stop_chars (id tail : List Char) (d : Char)
    (h1 : id ≠ []) (h2 : ∀ c ∈ id, stopChar c = false)
    (h3 : stopChar d = true) :
    getYouTubeId (String.mk (String.data "https://www.youtube.com/watch?v="
        ++ id ++ d :: tail)) = some (String.mk id) ∧
    getYouTubeId (String.mk
        (String.data "https://www.youtube.com/watch?a=1&v="
          ++ id ++ d :: tail)) = some (String.mk id) := by
  have hcap : captureRun (id ++ d :: tail) = id :=
    captureRun_append_stop id d tail h2 h3
  have hne : captureRun (id ++ d :: tail) ≠ [] := by
    rw [hcap]; exact h1
  constructor
  · have hskip : scanAlts ytAlts
        (String.data "https://www.youtube.com/watch?v=" ++ id ++ d :: tail) =
        scanAlts ytAlts ('?' :: 'v' :: '=' :: (id ++ d :: tail)) := rfl
    show (scanAlts ytAlts
        (String.data "https://www.youtube.com/watch?v=" ++ id ++ d :: tail)).map
        (fun l => String.mk l) = some (String.mk id)
    rw [hskip, scanAlts_at_qv (id ++ d :: tail) hne, hcap]
    rfl
  · have hskip : scanAlts ytAlts
        (String.data "https://www.youtube.com/watch?a=1&v="
          ++ id ++ d :: tail) =
        scanAlts ytAlts ('&' :: 'v' :: '=' :: (id ++ d :: tail)) := rfl
    show (scanAlts ytAlts
        (String.data "https://www.youtube.com/watch?a=1&v="
          ++ id ++ d :: tail)).map
        (fun l => String.mk l) = some (String.mk id)
    rw [hskip, scanAlts_at_av (id ++ d :: tail) hne, hcap]
    rfl

/-- Witness for `ytid_truncated_at_stop_chars` at id "abc" and trailing
parameter "&t=10". -/
theorem ytid_truncated_at_stop_chars_witness :
    getYouTubeId (String.mk (String.data "https://www.youtube.com/watch?v="
        ++ String.data "abc" ++ '&' :: String.data "t=10")) =
      some (String.mk (String.data "abc")) ∧
    getYouTubeId (String.mk
        (String.data "https://www.youtube.com/watch?a=1&v="
          ++ String.data "abc" ++ '&' :: String.data "t=10")) =
      some (String.mk (String.data "abc")) :=
  ytid_truncated_at_stop_chars (String.data "abc") (String.data "t=10") '&'
    (by decide) (by decide) (by decide)

end VideoBlock
